import Mathlib

/-!
Verification of the LLM-911 incident-triage helpers: a shallow embedding of
the loader derivations in app.py (load_sample_incident), the heuristic code
review and report generation in llm_investigator.py (run_code_review,
check_provider_status, run_llm_911), and the sandbox provisioning in
create_daytona_sandbox.py. Python values parsed from JSON are modelled by the
inductive type Json; Python numbers (int and float alike) are modelled as
exact rationals; a raised exception is modelled as the error branch of
Except. External calls (the Anthropic client, the Browser Use task, the
Daytona API) are modelled by environment records that carry each call
outcome, since the Python functions treat them as opaque request/response
collaborators.
-/

namespace LLM911

/-- A Python value as produced by json.load: None, bool, number (int or
float, modelled exactly as a rational), str, list, dict. -/
inductive Json where
  | null
  | bool (b : Bool)
  | num (q : ℚ)
  | str (s : String)
  | arr (items : List Json)
  | obj (fields : List (String × Json))

/-- Python dict lookup d.get(k): the value stored under key k, if any.
Dicts parsed from JSON have distinct keys, so the first match is the match. -/
def dictGet (fields : List (String × Json)) (k : String) : Option Json :=
  (fields.find? (fun p => p.1 == k)).map (·.2)

/-- Whether the character list p occurs at the start of l. -/
def startsWithL : List Char → List Char → Bool
  | [], _ => true
  | _ :: _, [] => false
  | a :: as, b :: bs => a == b && startsWithL as bs

/-- Whether the character list pat occurs contiguously anywhere in l. -/
def hasSubList (pat : List Char) : List Char → Bool
  | [] => pat.isEmpty
  | b :: bs => startsWithL pat (b :: bs) || hasSubList pat bs

/-- The Python substring test pat in s. -/
def strIn (pat s : String) : Bool := hasSubList pat.data s.data

/-- Python str.lower() (the code only lowercases ASCII text), written over
the character list. -/
def pyLower (s : String) : String := ⟨s.data.map Char.toLower⟩

/-- Python str(x) for a JSON-derived value. The code only compares the
result with the word TimeoutError, so the renderings of numbers, lists and
dicts (which always contain digits or brackets) are abbreviated. -/
def pyStr : Json → String
  | .null => "None"
  | .bool true => "True"
  | .bool false => "False"
  | .num q => toString q
  | .str s => s
  | .arr _ => "[...]"
  | .obj _ => "\x7b...\x7d"

/-- Digits folded into a natural number, most significant first. -/
def digitsToNat : List Char → ℕ → ℕ
  | [], acc => acc
  | c :: cs, acc => digitsToNat cs (acc * 10 + (c.toNat - '0'.toNat))

/-- Python float(s) on a string: an optional sign, then decimal digits with
an optional fraction part. The full Python grammar also allows exponents,
surrounding whitespace, underscores, inf and nan; those are not modelled
(nothing in the repository reaches them). None models a ValueError. -/
def parseFloatLit (s : String) : Option ℚ :=
  let signed : ℚ × List Char :=
    match s.data with
    | '-' :: r => (-1, r)
    | '+' :: r => (1, r)
    | r => (1, r)
  let intPart := signed.2.takeWhile Char.isDigit
  let rest := signed.2.dropWhile Char.isDigit
  match rest with
  | [] =>
      if intPart.isEmpty then none
      else some (signed.1 * (digitsToNat intPart 0 : ℚ))
  | '.' :: fracRest =>
      let fracPart := fracRest.takeWhile Char.isDigit
      let tail := fracRest.dropWhile Char.isDigit
      if tail.isEmpty && !(intPart.isEmpty && fracPart.isEmpty) then
        some (signed.1 *
          ((digitsToNat intPart 0 : ℚ) +
            (digitsToNat fracPart 0 : ℚ) / (10 ^ fracPart.length)))
      else none
  | _ => none

/-- Python float(x) for a JSON-derived value: numbers pass through, bools
convert (bool is an int subtype in Python), strings are parsed, and None,
lists and dicts raise TypeError (modelled as none, matching the caught
TypeError/ValueError in run_code_review). -/
def pyFloat : Json → Option ℚ
  | .num q => some q
  | .bool b => some (if b then 1 else 0)
  | .str s => parseFloatLit s
  | _ => none

/-! ## run_code_review (llm_investigator.py lines 69 to 116) -/

/-- Observation emitted by rule 1 of run_code_review. -/
def obs_timeout_low : String :=
  "The incident is a TimeoutError and the code sets an explicit timeout; that timeout is probably too low for real-world LLM latency."

/-- Observation emitted by rule 2 of run_code_review. -/
def obs_latency_high : String :=
  "The Galileo trace shows latency above 10 seconds; calls are slow and should be treated as retriable."

/-- Observation emitted by rule 3 of run_code_review. -/
def obs_missing_retry : String :=
  "The code does not mention retries or backoff; consider adding retries with backoff around the external LLM call."

/-- Fallback observation of run_code_review when no rule fired. -/
def obs_no_issues : String :=
  "No obvious issues detected in this short snippet, but double-check timeouts, retries, and latency handling."

/-- Rule 1 condition: error_type == TimeoutError and the literal text
timeout= occurs in the code snippet (case sensitive, as in the source).
error_type is str(sentry_error.get(error_type, default empty string)). -/
def cond1 (code_snippet : String) (skvs : List (String × Json)) : Bool :=
  pyStr ((dictGet skvs "error_type").getD (.str "")) == "TimeoutError"
    && strIn "timeout=" code_snippet

/-- Rule 2 condition: latency_value = galileo_trace.get(latency_seconds) is
not None and float(latency_value) > 10, with TypeError/ValueError suppressed.
A missing key yields None in Python, modelled by the null default. -/
def cond2 (gkvs : List (String × Json)) : Bool :=
  match (dictGet gkvs "latency_seconds").getD .null with
  | .null => false
  | v =>
      match pyFloat v with
      | some x => decide (x > 10)
      | none => false

/-- Rule 3 condition: neither retry nor backoff occurs in the lowercased
code snippet. -/
def cond3 (code_snippet : String) : Bool :=
  !(strIn "retry" (pyLower code_snippet))
    && !(strIn "backoff" (pyLower code_snippet))

/-- run_code_review from llm_investigator.py: the three rules append their
observations in order, the fallback replaces an empty list, and the result
joins the observations with single spaces. Each .get call requires its
receiver to be a dict: a list or scalar argument raises AttributeError,
modelled as the error branch. -/
def run_code_review (code_snippet : String)
    (sentry_error galileo_trace : Json) : Except Unit String :=
  match sentry_error, galileo_trace with
  | .obj skvs, .obj gkvs =>
      let observations : List String :=
        (if cond1 code_snippet skvs then [obs_timeout_low] else [])
          ++ (if cond2 gkvs then [obs_latency_high] else [])
          ++ (if cond3 code_snippet then [obs_missing_retry] else [])
      let observations :=
        if observations.isEmpty then [obs_no_issues] else observations
      .ok (String.intercalate " " observations)
  | _, _ => .error ()

/-! ## load_sample_incident derivations (app.py lines 64 to 92) -/

/-- The error_type derivation of load_sample_incident (app.py lines 66 to
72): UnknownError unless the Sentry document is a non-empty list whose first
element is a dict; then tags = first_event.get(tags, default empty dict) and
the classification is TimeoutError when tags.get(incident_type) equals the
string timeout. When the stored tags value is not a dict, tags.get raises
AttributeError (there is no isinstance guard on tags), modelled as the error
branch. -/
def deriveErrorType (sentry_data : Json) : Except Unit String :=
  match sentry_data with
  | .arr (first_event :: _) =>
      match first_event with
      | .obj fkvs =>
          match (dictGet fkvs "tags").getD (.obj []) with
          | .obj tkvs =>
              .ok
                (if (match dictGet tkvs "incident_type" with
                     | some (.str s) => s == "timeout"
                     | _ => false)
                 then "TimeoutError" else "UnknownError")
          | _ => .error ()
      | _ => .ok "UnknownError"
  | _ => .ok "UnknownError"

/-- The latency_seconds derivation of load_sample_incident (app.py lines 74
to 83): None unless the Galileo document is a dict whose records value is a
non-empty list with a dict first element; then metrics = first_record.get(
metrics, default empty dict), and a latency_ms value passing isinstance(x,
(int, float)) is divided by 1000. Python bools pass that isinstance test
(bool is an int subtype). When the stored metrics value is not a dict,
metrics.get raises AttributeError, modelled as the error branch. -/
def deriveLatencySeconds (galileo_data : Json) : Except Unit (Option ℚ) :=
  match galileo_data with
  | .obj gkvs =>
      match (dictGet gkvs "records").getD .null with
      | .arr (first_record :: _) =>
          match first_record with
          | .obj rkvs =>
              match (dictGet rkvs "metrics").getD (.obj []) with
              | .obj mkvs =>
                  match dictGet mkvs "latency_ms" with
                  | some (.num q) => .ok (some (q / 1000))
                  | some (.bool b) =>
                      .ok (some ((if b then (1 : ℚ) else 0) / 1000))
                  | _ => .ok none
              | _ => .error ()
          | _ => .ok none
      | _ => .ok none
  | _ => .ok none

/-- load_sample_incident on two parsed documents: both derivations run and
the derived scalars are stored next to the raw documents in the two
session-state dicts. -/
def load_sample_incident (sentry_data galileo_data : Json) :
    Except Unit (Json × Json) := do
  let error_type ← deriveErrorType sentry_data
  let latency_seconds ← deriveLatencySeconds galileo_data
  return (.obj [("error_type", .str error_type), ("raw", sentry_data)],
    .obj [("latency_seconds",
            match latency_seconds with
            | some q => .num q
            | none => .null),
          ("raw", galileo_data)])

/-! ## check_provider_status (llm_investigator.py lines 33 to 66) -/

/-- Environment of check_provider_status: the resolved BROWSER_USE_API_KEY
(after load_dotenv plus os.getenv) and the outcome of the Browser Use task
round trip. The error branch stands for any exception inside the try block;
the ok branch carries str(result.output). -/
structure ProviderEnv where
  browser_use_api_key : Option String
  task_output : Except Unit String

/-- The fallback sentence check_provider_status returns when Browser Use is
not configured or the status check fails. -/
def provider_fallback : String := "Browser Use failed, skipping provider check."

/-- Python falsiness of an optional string: None and the empty string are
falsy. -/
def pyFalsyOptStr : Option String → Bool
  | none => true
  | some s => s == ""

/-- check_provider_status from llm_investigator.py: the fallback when the
key is missing or empty or any step of the external call raises; otherwise
the page text is lowercased and scanned for degraded performance, latency or
incident, giving the warning sentence or the all-clear sentence. -/
def check_provider_status (env : ProviderEnv) : String :=
  if pyFalsyOptStr env.browser_use_api_key then provider_fallback
  else
    match env.task_output with
    | .error _ => provider_fallback
    | .ok page_text =>
        let text_lower := pyLower page_text
        if strIn "degraded performance" text_lower
            || strIn "latency" text_lower
            || strIn "incident" text_lower then
          "Provider status warning: Anthropic status page mentions possible issues (degraded performance/latency/incident)."
        else
          "Provider status: No issues reported on Anthropic status page."

/-! ## run_llm_911 (llm_investigator.py lines 119 to 248) -/

/-- One content block of the Anthropic response: its type attribute and its
text. -/
structure ContentBlock where
  btype : String
  text : String

/-- Outcome of the client.messages.create call: the response content blocks,
an APIStatusError with its status code, or any other exception. -/
inductive LlmCallOutcome where
  | success (content : List ContentBlock)
  | apiStatusError (status_code : ℕ) (detail : String)
  | otherError (detail : String)

/-- Environment of run_llm_911: the outcome of _get_anthropic_client (the
error branch carries str(e), for example the missing ANTHROPIC_API_KEY
RuntimeError), the Browser Use environment, and the outcome of the one LLM
call. The call outcome is environment data: the composed prompt goes out to
the external service and only the response comes back. -/
structure LlmEnv where
  client_init : Except String Unit
  provider : ProviderEnv
  llm_call : LlmCallOutcome

/-- The fixed tag every error return of run_llm_911 starts with. -/
def errorTag : String := "[LLM 911 ERROR]"

/-- run_llm_911 from llm_investigator.py. The heuristic review runs first,
outside every try block, so an AttributeError from run_code_review (a
non-dict incident or trace argument) propagates, modelled as the error
branch. After that every failure is caught: client initialization problems,
API status errors, other call errors, and an empty extracted response each
return a tagged message string. The provider status summary and the review
text feed the prompt sent with the call; the serialized prompt text does not
otherwise affect the returned value, so its json.dumps rendering is not
modelled. -/
def run_llm_911 (env : LlmEnv) (sentry_incident galileo_trace : Json)
    (broken_code : String) : Except Unit String :=
  match run_code_review broken_code sentry_incident galileo_trace with
  | .error e => .error e
  | .ok _code_review_summary =>
      match env.client_init with
      | .error e =>
          .ok ("[LLM 911 ERROR] Could not initialize Anthropic client. Details: " ++ e)
      | .ok _ =>
          let _provider_status_summary := check_provider_status env.provider
          match env.llm_call with
          | .apiStatusError status_code detail =>
              .ok ("[LLM 911 ERROR] Anthropic API error while generating the report. Status: "
                ++ toString status_code ++ ", Details: " ++ detail)
          | .otherError detail =>
              .ok ("[LLM 911 ERROR] Unexpected error while calling the LLM. Details: " ++ detail)
          | .success content =>
              let parts := (content.filter (fun b => b.btype == "text")).map (·.text)
              let report_text := (String.intercalate "\n" parts).trim
              if report_text == "" then
                .ok "[LLM 911 ERROR] LLM returned an empty response."
              else .ok report_text

/-- Whether the environment puts run_llm_911 into one of its failure modes:
client initialization failed, the LLM call failed, or the extracted response
text is empty. -/
def llmFailureMode (env : LlmEnv) : Bool :=
  match env.client_init with
  | .error _ => true
  | .ok _ =>
      match env.llm_call with
      | .apiStatusError _ _ => true
      | .otherError _ => true
      | .success content =>
          (String.intercalate "\n"
            ((content.filter (fun b => b.btype == "text")).map (·.text))).trim == ""

/-! ## create_daytona_sandbox (create_daytona_sandbox.py) -/

/-- Environment of create_daytona_sandbox: the data/.env file contents, the
process environment, the provisioning call (the sandbox the API returns for
a given api key; the created sandbox is modelled by its identifier), and the
git clone call on the resolved url and path (the error branch carries the
DaytonaError message). -/
structure DaytonaWorld where
  dotenv : List (String × String)
  os_environ : List (String × String)
  create : String → String
  clone : String → String → Except String Unit

/-- Lookup in a list of environment entries. -/
def lookupEnv (pairs : List (String × String)) (k : String) : Option String :=
  (pairs.find? (fun p => p.1 == k)).map (·.2)

/-- os.getenv after load_dotenv(override=False): a variable already present
in the process environment keeps its value (even an empty one); only a
missing variable is filled from the dotenv file. -/
def resolvedEnv (w : DaytonaWorld) (k : String) : Option String :=
  match lookupEnv w.os_environ k with
  | some v => some v
  | none => lookupEnv w.dotenv k

/-- The Python expression a or b for an optional string a: a when truthy
(present and non-empty), otherwise b. -/
def orElsePy (a b : Option String) : Option String :=
  match a with
  | some s => if s == "" then b else some s
  | none => b

/-- The Python expression a or d with a string default d. -/
def pyOrStr (a : Option String) (d : String) : String :=
  match a with
  | some s => if s == "" then d else s
  | none => d

/-- Default repository url from create_daytona_sandbox.py. -/
def DEFAULT_DAYTONA_REPOSITORY : String := "https://github.com/arun3676/LLM-911"

/-- Default in-sandbox clone path from create_daytona_sandbox.py. -/
def DEFAULT_DAYTONA_REPO_PATH : String := "workspace/LLM-911"

/-- api_key or os.getenv(DAYTONA_API_KEY) after load_dotenv(override=False). -/
def resolved_api_key (w : DaytonaWorld) (api_key : Option String) : Option String :=
  orElsePy api_key (resolvedEnv w "DAYTONA_API_KEY")

/-- repository or os.getenv(DAYTONA_REPOSITORY) or the project default. -/
def resolved_repo (w : DaytonaWorld) (repository : Option String) : String :=
  pyOrStr (orElsePy repository (resolvedEnv w "DAYTONA_REPOSITORY"))
    DEFAULT_DAYTONA_REPOSITORY

/-- repo_path or os.getenv(DAYTONA_REPOSITORY_PATH) or the project default. -/
def resolved_repo_path (w : DaytonaWorld) (repo_path : Option String) : String :=
  pyOrStr (orElsePy repo_path (resolvedEnv w "DAYTONA_REPOSITORY_PATH"))
    DEFAULT_DAYTONA_REPO_PATH

/-- The message of the RuntimeError raised when no API key resolves. -/
def missing_key_message : String :=
  "DAYTONA_API_KEY is not set. Add it to data/.env or your environment."

/-- create_daytona_sandbox from create_daytona_sandbox.py: resolve the key
(raising the descriptive RuntimeError when it is missing or empty), resolve
repository and path, create the sandbox, clone the repository into it; a
DaytonaError whose lowercased message contains already exists is swallowed
and the sandbox returned, any other DaytonaError is re-raised wrapped in a
RuntimeError naming the repository. The error branch carries the raised
message. -/
def create_daytona_sandbox (w : DaytonaWorld)
    (api_key repository repo_path : Option String) : Except String String :=
  match resolved_api_key w api_key with
  | none => .error missing_key_message
  | some k =>
      if k == "" then .error missing_key_message
      else
        let sandbox := w.create k
        match w.clone (resolved_repo w repository) (resolved_repo_path w repo_path) with
        | .ok _ => .ok sandbox
        | .error exc =>
            if strIn "already exists" (pyLower exc) then .ok sandbox
            else
              .error ("Failed to clone " ++ resolved_repo w repository
                ++ " into sandbox: " ++ exc)

/-! ## Spec-side classifiers for the loader claims -/

/-- The shape the spec gives for a TimeoutError classification: a non-empty
sequence whose first element is a mapping containing a tags mapping whose
incident_type equals timeout. -/
def isTimeoutShaped : Json → Bool
  | .arr (.obj fkvs :: _) =>
      match dictGet fkvs "tags" with
      | some (.obj tkvs) =>
          match dictGet tkvs "incident_type" with
          | some (.str s) => s == "timeout"
          | _ => false
      | _ => false
  | _ => false

/-- Whether the error document avoids the unguarded tags lookup: when its
first element is a mapping, the stored tags value (if any) is a mapping. -/
def tagsSafe : Json → Bool
  | .arr (.obj fkvs :: _) =>
      match dictGet fkvs "tags" with
      | none => true
      | some (.obj _) => true
      | some _ => false
  | _ => true

/-- The value the spec lookup records[0].metrics.latency_ms reaches in the
trace document, when every container on the way has the required shape. -/
def latencyLookup : Json → Option Json
  | .obj gkvs =>
      match dictGet gkvs "records" with
      | some (.arr (.obj rkvs :: _)) =>
          match dictGet rkvs "metrics" with
          | some (.obj mkvs) => dictGet mkvs "latency_ms"
          | _ => none
      | _ => none
  | _ => none

/-- Whether the trace document avoids the unguarded metrics lookup: when its
first record is a mapping, the stored metrics value (if any) is a mapping. -/
def metricsSafe : Json → Bool
  | .obj gkvs =>
      match dictGet gkvs "records" with
      | some (.arr (.obj rkvs :: _)) =>
          match dictGet rkvs "metrics" with
          | none => true
          | some (.obj _) => true
          | some _ => false
      | _ => true
  | _ => true

/-- Whether an optional value passes the isinstance(x, (int, float)) test of
app.py, under which Python bools count as numbers. -/
def isNumericPy : Option Json → Bool
  | some (.num _) => true
  | some (.bool _) => true
  | _ => false

/-- Whether the string s starts with the string pre. -/
def strStartsWith (s pre : String) : Bool := startsWithL pre.data s.data

/-- Whether the Browser Use task round trip raised. -/
def isTaskFailure (p : ProviderEnv) : Bool :=
  match p.task_output with
  | .error _ => true
  | .ok _ => false

/-- The key resolution the code actually performs, written from the amended
claim: a non-empty explicit argument wins; otherwise a variable present in
the process environment wins over the dotenv file, because
load_dotenv(override=False) never overwrites an existing variable; the
dotenv value is used only when the process environment lacks the variable. -/
def specResolveKey (arg osv dv : Option String) : Option String :=
  match arg with
  | some a =>
      if a == "" then (match osv with | some v => some v | none => dv)
      else some a
  | none => match osv with | some v => some v | none => dv

/-- Closed form of the error_type derivation: the well-guarded documents
split into TimeoutError and UnknownError by shape, the rest raise. -/
theorem deriveErrorType_eq (doc : Json) :
    deriveErrorType doc =
      if tagsSafe doc then
        .ok (if isTimeoutShaped doc then "TimeoutError" else "UnknownError")
      else .error () := by
  rcases doc with _ | b | q | s | items | fields <;> try rfl
  rcases items with _ | ⟨first, rest⟩
  · rfl
  rcases first with _ | b | q | s | it | fkvs <;> try rfl
  rcases htags : dictGet fkvs "tags" with _ | v
  · simp only [deriveErrorType, tagsSafe, isTimeoutShaped, htags]
    simp [dictGet]
  · rcases v with _ | b | q | s | it | tkvs <;>
      simp [deriveErrorType, tagsSafe, isTimeoutShaped, htags]

/-- A timeout-shaped document in particular has a well-guarded tags value. -/
theorem isTimeoutShaped_tagsSafe (doc : Json) :
    isTimeoutShaped doc = true → tagsSafe doc = true := by
  rcases doc with _ | b | q | s | items | fields <;> try simp [isTimeoutShaped]
  rcases items with _ | ⟨first, rest⟩
  · simp [isTimeoutShaped]
  rcases first with _ | b | q | s | it | fkvs <;> try simp [isTimeoutShaped]
  rcases htags : dictGet fkvs "tags" with _ | v
  · simp [isTimeoutShaped, tagsSafe, htags]
  · rcases v with _ | b | q | s | it | tkvs <;>
      simp [isTimeoutShaped, tagsSafe, htags]

/-- A successful latency lookup in particular has a well-guarded metrics
value. -/
theorem latencyLookup_some_metricsSafe (doc : Json) (v : Json) :
    latencyLookup doc = some v → metricsSafe doc = true := by
  rcases doc with _ | b | q | s | items | gkvs <;> try simp [latencyLookup]
  rcases hrec : dictGet gkvs "records" with _ | w
  · simp [latencyLookup, hrec]
  rcases w with _ | b | q | s | items | fields <;> try simp [latencyLookup, hrec]
  rcases items with _ | ⟨first, rest⟩
  · simp [latencyLookup, hrec]
  rcases first with _ | b | q | s | it | rkvs <;> try simp [latencyLookup, hrec]
  rcases hmet : dictGet rkvs "metrics" with _ | m
  · simp [latencyLookup, hrec, hmet]
  · rcases m with _ | b | q | s | it | mkvs <;>
      simp [latencyLookup, metricsSafe, hrec, hmet]

/-- Closed form of the latency_seconds derivation: well-guarded documents
map a numeric (or boolean) latency_ms to its value over 1000 and everything
else to null; a present non-mapping metrics value raises. -/
theorem deriveLatencySeconds_eq (doc : Json) :
    deriveLatencySeconds doc =
      if metricsSafe doc then
        .ok (match latencyLookup doc with
             | some (.num q) => some (q / 1000)
             | some (.bool b) => some ((if b then (1 : ℚ) else 0) / 1000)
             | _ => none)
      else .error () := by
  rcases doc with _ | b | q | s | items | gkvs <;> try rfl
  rcases hrec : dictGet gkvs "records" with _ | w
  · simp [deriveLatencySeconds, metricsSafe, latencyLookup, hrec]
  rcases w with _ | b | q | s | items | fields <;>
    try simp [deriveLatencySeconds, metricsSafe, latencyLookup, hrec]
  rcases items with _ | ⟨first, rest⟩
  · simp [deriveLatencySeconds, metricsSafe, latencyLookup, hrec]
  rcases first with _ | b | q | s | it | rkvs <;>
    try simp [deriveLatencySeconds, metricsSafe, latencyLookup, hrec]
  rcases hmet : dictGet rkvs "metrics" with _ | m
  · simp [deriveLatencySeconds, metricsSafe, latencyLookup, hrec, hmet, dictGet]
  rcases m with _ | b | q | s | it | mkvs <;>
    try simp [deriveLatencySeconds, metricsSafe, latencyLookup, hrec, hmet]
  rcases hlat : dictGet mkvs "latency_ms" with _ | v
  · simp [deriveLatencySeconds, metricsSafe, latencyLookup, hrec, hmet, hlat]
  · rcases v with _ | b | q | s | it | kvs <;>
      simp [deriveLatencySeconds, metricsSafe, latencyLookup, hrec, hmet, hlat]

/-- C2 (counterexample). The claim says every error document other than the
timeout-shaped ones derives UnknownError; but on the well-formed document
whose first event stores a list under tags, the loader raises AttributeError
(tags.get on a list) instead of producing any classification. -/
theorem deriveErrorType_raises_on_list_tags :
    deriveErrorType (.arr [.obj [("tags", .arr [])]]) = .error () ∧
    (Except.error () : Except Unit String) ≠ .ok "UnknownError" :=
  ⟨rfl, fun h => Except.noConfusion h⟩

/-- C2 (amended). error_type is TimeoutError exactly on the documents that
are a non-empty sequence whose first element is a mapping containing a tags
mapping with incident_type equal to timeout; every other document whose tags
value (when its first element is a mapping and the key is present) is itself
a mapping derives UnknownError, and TimeoutError and UnknownError are the
only classifications; but a present non-mapping tags value makes the
derivation raise instead. -/
theorem deriveErrorType_spec (doc : Json) :
    (deriveErrorType doc = .ok "TimeoutError" ↔ isTimeoutShaped doc = true) ∧
    (tagsSafe doc = true → isTimeoutShaped doc = false →
      deriveErrorType doc = .ok "UnknownError") ∧
    (tagsSafe doc = false → deriveErrorType doc = .error ()) ∧
    (∀ s : String, deriveErrorType doc = .ok s →
      s = "TimeoutError" ∨ s = "UnknownError") := by
  refine ⟨⟨fun h => ?_, fun h => ?_⟩, fun hsafe hnot => ?_, fun hsafe => ?_,
    fun s h => ?_⟩
  · by_cases hsafe : tagsSafe doc
    · rw [deriveErrorType_eq, if_pos hsafe] at h
      by_cases hshape : isTimeoutShaped doc
      · exact hshape
      · rw [if_neg hshape] at h
        exact absurd (Except.ok.inj h) (by decide)
    · rw [deriveErrorType_eq, if_neg hsafe] at h
      exact Except.noConfusion h
  · rw [deriveErrorType_eq, if_pos (isTimeoutShaped_tagsSafe doc h), if_pos h]
  · rw [deriveErrorType_eq, if_pos hsafe, if_neg (by simp [hnot])]
  · rw [deriveErrorType_eq, if_neg (by simp [hsafe])]
  · by_cases hsafe : tagsSafe doc
    · rw [deriveErrorType_eq, if_pos hsafe] at h
      by_cases hshape : isTimeoutShaped doc
      · rw [if_pos hshape] at h
        exact Or.inl (Except.ok.inj h).symm
      · rw [if_neg hshape] at h
        exact Or.inr (Except.ok.inj h).symm
    · rw [deriveErrorType_eq, if_neg hsafe] at h
      exact Except.noConfusion h

/-- C2 (witness). The amended statement applied to the sample timeout event
document and, through its second part, to the empty list. -/
theorem deriveErrorType_spec_applied :
    deriveErrorType
        (.arr [.obj [("tags", .obj [("incident_type", .str "timeout")])]]) =
      .ok "TimeoutError" ∧
    deriveErrorType (.arr []) = .ok "UnknownError" :=
  ⟨(deriveErrorType_spec _).1.mpr (by rfl),
   (deriveErrorType_spec _).2.1 (by rfl) (by rfl)⟩

/-- C3 (counterexample). The claim says a missing or non-numeric value at
any level of the lookup yields null and the derivation never raises; but on
the well-formed trace document whose first record stores a list under
metrics, the derivation raises AttributeError (metrics.get on a list)
instead of yielding null. -/
theorem deriveLatencySeconds_raises_on_list_metrics :
    deriveLatencySeconds (.obj [("records", .arr [.obj [("metrics", .arr [])]])]) =
      .error () ∧
    (Except.error () : Except Unit (Option ℚ)) ≠ .ok none :=
  ⟨rfl, fun h => Except.noConfusion h⟩

/-- C3 (amended). When the lookup records[0].metrics.latency_ms reaches a
number L, latency_seconds is exactly L / 1000 (numbers are modelled as exact
rationals; Python evaluates the division in double precision); a boolean
there also passes the isinstance(int, float) test, bool being an int subtype
in Python, and yields 0.001 or 0.0; any other missing or non-numeric value
yields null provided the metrics value stored in a mapping first record is
itself a mapping (or absent) - when it is present and not a mapping, the
derivation raises AttributeError instead. -/
theorem deriveLatencySeconds_spec (doc : Json) :
    (∀ q : ℚ, latencyLookup doc = some (.num q) →
      deriveLatencySeconds doc = .ok (some (q / 1000))) ∧
    (∀ b : Bool, latencyLookup doc = some (.bool b) →
      deriveLatencySeconds doc = .ok (some ((if b then (1 : ℚ) else 0) / 1000))) ∧
    (metricsSafe doc = true → isNumericPy (latencyLookup doc) = false →
      deriveLatencySeconds doc = .ok none) ∧
    (metricsSafe doc = false → deriveLatencySeconds doc = .error ()) := by
  refine ⟨fun q h => ?_, fun b h => ?_, fun hsafe hnum => ?_, fun hsafe => ?_⟩
  · rw [deriveLatencySeconds_eq,
      if_pos (latencyLookup_some_metricsSafe doc _ h), h]
  · rw [deriveLatencySeconds_eq,
      if_pos (latencyLookup_some_metricsSafe doc _ h), h]
  · rw [deriveLatencySeconds_eq, if_pos hsafe]
    rcases hl : latencyLookup doc with _ | v
    · rfl
    · rcases v with _ | b | q | s | it | kvs <;> simp_all [isNumericPy]
  · rw [deriveLatencySeconds_eq, if_neg (by simp [hsafe])]

/-- C3 (witness). The amended statement applied to the sample trace with a
15000 millisecond latency, which derives exactly 15 seconds, and to an empty
trace mapping, which derives null. -/
theorem deriveLatencySeconds_spec_applied :
    deriveLatencySeconds
        (.obj [("records", .arr [.obj [("metrics",
          .obj [("latency_ms", .num 15000)])]])]) = .ok (some 15) ∧
    deriveLatencySeconds (.obj []) = .ok none := by
  constructor
  · have h := (deriveLatencySeconds_spec
      (.obj [("records", .arr [.obj [("metrics",
        .obj [("latency_ms", .num 15000)])]])])).1 15000 (by rfl)
    rw [h]
    norm_num
  · exact (deriveLatencySeconds_spec (.obj [])).2.2.1 (by rfl) (by rfl)

/-- C4. With errorType TimeoutError and the literal timeout= in the code
text, the review contains the timeout-likely-too-low observation; with
neither retry nor backoff in the lowercased code text (and any error type),
it contains the missing-retry observation; and when both conditions hold the
output is all fired observations joined by single spaces in rule order, the
latency rule (rule 2) sitting between them exactly when it fired. -/
theorem run_code_review_rules (code : String) (et lv : Json) :
    (strIn "timeout=" code = true →
      ∃ out, run_code_review code (.obj [("error_type", .str "TimeoutError")])
          (.obj [("latency_seconds", lv)]) = .ok out ∧
        strIn obs_timeout_low out = true) ∧
    (cond3 code = true →
      ∃ out, run_code_review code (.obj [("error_type", et)])
          (.obj [("latency_seconds", lv)]) = .ok out ∧
        strIn obs_missing_retry out = true) ∧
    (strIn "timeout=" code = true → cond3 code = true →
      run_code_review code (.obj [("error_type", .str "TimeoutError")])
          (.obj [("latency_seconds", lv)]) =
        .ok (String.intercalate " "
          ([obs_timeout_low]
            ++ (if cond2 [("latency_seconds", lv)] then [obs_latency_high] else [])
            ++ [obs_missing_retry]))) := by
  have hc1 : ∀ h : strIn "timeout=" code = true,
      cond1 code [("error_type", .str "TimeoutError")] = true := by
    intro h
    simp [cond1, h, dictGet, pyStr]
  refine ⟨fun h1 => ?_, fun h3 => ?_, fun h1 h3 => ?_⟩
  · cases h2 : cond2 [("latency_seconds", lv)] <;> cases h3 : cond3 code
    · exact ⟨String.intercalate " " [obs_timeout_low],
        by simp [run_code_review, hc1 h1, h2, h3], by decide⟩
    · exact ⟨String.intercalate " " [obs_timeout_low, obs_missing_retry],
        by simp [run_code_review, hc1 h1, h2, h3], by decide⟩
    · exact ⟨String.intercalate " " [obs_timeout_low, obs_latency_high],
        by simp [run_code_review, hc1 h1, h2, h3], by decide⟩
    · exact ⟨String.intercalate " "
          [obs_timeout_low, obs_latency_high, obs_missing_retry],
        by simp [run_code_review, hc1 h1, h2, h3], by decide⟩
  · cases h1 : cond1 code [("error_type", et)] <;>
      cases h2 : cond2 [("latency_seconds", lv)]
    · exact ⟨String.intercalate " " [obs_missing_retry],
        by simp [run_code_review, h1, h2, h3], by decide⟩
    · exact ⟨String.intercalate " " [obs_latency_high, obs_missing_retry],
        by simp [run_code_review, h1, h2, h3], by decide⟩
    · exact ⟨String.intercalate " " [obs_timeout_low, obs_missing_retry],
        by simp [run_code_review, h1, h2, h3], by decide⟩
    · exact ⟨String.intercalate " "
          [obs_timeout_low, obs_latency_high, obs_missing_retry],
        by simp [run_code_review, h1, h2, h3], by decide⟩
  · cases h2 : cond2 [("latency_seconds", lv)] <;>
      simp [run_code_review, hc1 h1, h2, h3]

/-- C4 (witness). Both rule conditions on the sample snippet with an
explicit low timeout: the review contains both observations, in rule order
around the fired latency observation. -/
theorem run_code_review_rules_applied :
    ∃ out, run_code_review "requests.post(url, timeout=2.0)"
        (.obj [("error_type", .str "TimeoutError")])
        (.obj [("latency_seconds", .num 15)]) = .ok out ∧
      strIn obs_timeout_low out = true :=
  (run_code_review_rules "requests.post(url, timeout=2.0)" (.str "TimeoutError")
    (.num 15)).1 (by decide)

/-- C5. With latency_seconds present as a number q, the review contains the
latency-high observation exactly when q is strictly greater than 10,
whatever the error type and code text. -/
theorem run_code_review_latency_iff (code : String) (et : Json) (q : ℚ) :
    ∃ out, run_code_review code (.obj [("error_type", et)])
        (.obj [("latency_seconds", .num q)]) = .ok out ∧
      (strIn obs_latency_high out = true ↔ q > 10) := by
  have hc2 : cond2 [("latency_seconds", .num q)] = decide (q > 10) := rfl
  by_cases hq : q > 10
  · have h2 : cond2 [("latency_seconds", .num q)] = true := by
      rw [hc2]; exact decide_eq_true hq
    cases h1 : cond1 code [("error_type", et)] <;> cases h3 : cond3 code
    · exact ⟨String.intercalate " " [obs_latency_high],
        by simp [run_code_review, h1, h2, h3], ⟨fun _ => hq, fun _ => by decide⟩⟩
    · exact ⟨String.intercalate " " [obs_latency_high, obs_missing_retry],
        by simp [run_code_review, h1, h2, h3], ⟨fun _ => hq, fun _ => by decide⟩⟩
    · exact ⟨String.intercalate " " [obs_timeout_low, obs_latency_high],
        by simp [run_code_review, h1, h2, h3], ⟨fun _ => hq, fun _ => by decide⟩⟩
    · exact ⟨String.intercalate " "
          [obs_timeout_low, obs_latency_high, obs_missing_retry],
        by simp [run_code_review, h1, h2, h3], ⟨fun _ => hq, fun _ => by decide⟩⟩
  · have h2 : cond2 [("latency_seconds", .num q)] = false := by
      rw [hc2]; exact decide_eq_false hq
    cases h1 : cond1 code [("error_type", et)] <;> cases h3 : cond3 code
    · exact ⟨String.intercalate " " [obs_no_issues],
        by simp [run_code_review, h1, h2, h3],
        ⟨fun h => absurd h (by decide), fun h => absurd h hq⟩⟩
    · exact ⟨String.intercalate " " [obs_missing_retry],
        by simp [run_code_review, h1, h2, h3],
        ⟨fun h => absurd h (by decide), fun h => absurd h hq⟩⟩
    · exact ⟨String.intercalate " " [obs_timeout_low],
        by simp [run_code_review, h1, h2, h3],
        ⟨fun h => absurd h (by decide), fun h => absurd h hq⟩⟩
    · exact ⟨String.intercalate " " [obs_timeout_low, obs_missing_retry],
        by simp [run_code_review, h1, h2, h3],
        ⟨fun h => absurd h (by decide), fun h => absurd h hq⟩⟩

/-- C5 (witness). Latency 12.5 fires the latency-high observation (the
claim also checks 3.0 does not; that is the other side of the same applied
equivalence, since 3 is not greater than 10). -/
theorem run_code_review_latency_iff_applied :
    ∃ out, run_code_review "x" (.obj [("error_type", .str "UnknownError")])
        (.obj [("latency_seconds", .num (25 / 2))]) = .ok out ∧
      (strIn obs_latency_high out = true ↔ (25 / 2 : ℚ) > 10) :=
  run_code_review_latency_iff "x" (.str "UnknownError") (25 / 2)

/-- C6. When no rule fires - the timeout rule, the latency rule and the
missing-retry rule each have a false condition - the review is exactly the
single fixed fallback sentence. -/
theorem run_code_review_fallback (code : String) (et lv : Json) :
    cond1 code [("error_type", et)] = false →
    cond2 [("latency_seconds", lv)] = false →
    cond3 code = false →
    run_code_review code (.obj [("error_type", et)])
        (.obj [("latency_seconds", lv)]) = .ok obs_no_issues := by
  intro h1 h2 h3
  simp only [run_code_review, h1, h2, h3]
  rfl

/-- C6 (witness). The claim example: UnknownError, null latency, and a code
text containing retry gives exactly the fallback sentence. -/
theorem run_code_review_fallback_applied :
    run_code_review "call with retry" (.obj [("error_type", .str "UnknownError")])
        (.obj [("latency_seconds", .null)]) = .ok obs_no_issues :=
  run_code_review_fallback "call with retry" (.str "UnknownError") .null
    (by decide) (by decide) (by decide)

/-- C7. The heuristic review is a pure function of its three inputs - two
evaluations on the same arguments are the same term, with no environment in
its signature to carry I/O - and on every pair of dict arguments (any
fields, any stored values) it returns, without raising, a non-empty string. -/
theorem run_code_review_pure (code : String) (skvs gkvs : List (String × Json)) :
    run_code_review code (.obj skvs) (.obj gkvs) =
      run_code_review code (.obj skvs) (.obj gkvs) ∧
    ∃ out, run_code_review code (.obj skvs) (.obj gkvs) = .ok out ∧ out ≠ "" := by
  refine ⟨rfl, ?_⟩
  cases h1 : cond1 code skvs <;> cases h2 : cond2 gkvs <;> cases h3 : cond3 code
  · exact ⟨String.intercalate " " [obs_no_issues],
      by simp [run_code_review, h1, h2, h3], by decide⟩
  · exact ⟨String.intercalate " " [obs_missing_retry],
      by simp [run_code_review, h1, h2, h3], by decide⟩
  · exact ⟨String.intercalate " " [obs_latency_high],
      by simp [run_code_review, h1, h2, h3], by decide⟩
  · exact ⟨String.intercalate " " [obs_latency_high, obs_missing_retry],
      by simp [run_code_review, h1, h2, h3], by decide⟩
  · exact ⟨String.intercalate " " [obs_timeout_low],
      by simp [run_code_review, h1, h2, h3], by decide⟩
  · exact ⟨String.intercalate " " [obs_timeout_low, obs_missing_retry],
      by simp [run_code_review, h1, h2, h3], by decide⟩
  · exact ⟨String.intercalate " " [obs_timeout_low, obs_latency_high],
      by simp [run_code_review, h1, h2, h3], by decide⟩
  · exact ⟨String.intercalate " "
        [obs_timeout_low, obs_latency_high, obs_missing_retry],
      by simp [run_code_review, h1, h2, h3], by decide⟩

/-- C7 (witness). The purity statement applied to the empty review input. -/
theorem run_code_review_pure_applied :
    run_code_review "" (.obj []) (.obj []) = run_code_review "" (.obj []) (.obj []) ∧
    ∃ out, run_code_review "" (.obj []) (.obj []) = .ok out ∧ out ≠ "" :=
  run_code_review_pure "" [] []

/-- A match at the start of a list survives appending on the right. -/
theorem startsWithL_append (p l r : List Char) (h : startsWithL p l = true) :
    startsWithL p (l ++ r) = true := by
  induction p generalizing l with
  | nil => rfl
  | cons a as ih =>
      cases l with
      | nil => exact absurd h (by simp [startsWithL])
      | cons b bs =>
          simp only [startsWithL, Bool.and_eq_true] at h
          simp only [List.cons_append, startsWithL, Bool.and_eq_true]
          exact ⟨h.1, ih bs h.2⟩

/-- A string keeps its leading text when more text is appended. -/
theorem strStartsWith_append_right (pre a b : String)
    (h : strStartsWith a pre = true) : strStartsWith (a ++ b) pre = true := by
  obtain ⟨ad⟩ := a
  obtain ⟨bd⟩ := b
  exact startsWithL_append pre.data ad bd h

/-- C1 (counterexample). The claim includes an empty sequence as the
incident summary among the well-formed inputs; on it run_llm_911 raises
(the heuristic review runs before any try block and calls .get on the
list), instead of returning a tagged error string. -/
theorem run_llm_911_raises_on_list_incident :
    run_llm_911 ⟨.ok (), ⟨none, .error ()⟩, .success []⟩
      (.arr []) (.obj []) "" = .error () := rfl

/-- C1 (amended). On mapping-shaped incident and trace summaries - any
fields, including empty mappings, and any code text - run_llm_911 never
raises, and whenever the environment puts it in a failure mode (client
initialization failed, the LLM call failed, or the response text was empty)
the returned string starts with the fixed [LLM 911 ERROR] tag; but a
sequence as incident or trace summary makes the un-guarded review step
raise AttributeError. -/
theorem run_llm_911_total_on_mappings (env : LlmEnv)
    (skvs gkvs : List (String × Json)) (code : String) :
    ∃ s, run_llm_911 env (.obj skvs) (.obj gkvs) code = .ok s ∧
      (llmFailureMode env = true → strStartsWith s errorTag = true) := by
  obtain ⟨ci, prov, call⟩ := env
  cases ci with
  | error e =>
      refine ⟨"[LLM 911 ERROR] Could not initialize Anthropic client. Details: " ++ e,
        rfl, fun _ => ?_⟩
      exact strStartsWith_append_right _ _ _ (by decide)
  | ok u =>
      cases u
      cases call with
      | apiStatusError st d =>
          refine ⟨"[LLM 911 ERROR] Anthropic API error while generating the report. Status: "
              ++ toString st ++ ", Details: " ++ d, rfl, fun _ => ?_⟩
          exact strStartsWith_append_right _ _ _
            (strStartsWith_append_right _ _ _
              (strStartsWith_append_right _ _ _ (by decide)))
      | otherError d =>
          refine ⟨"[LLM 911 ERROR] Unexpected error while calling the LLM. Details: " ++ d,
            rfl, fun _ => ?_⟩
          exact strStartsWith_append_right _ _ _ (by decide)
      | success content =>
          cases h : (String.intercalate "\n"
              ((content.filter (fun b => b.btype == "text")).map (·.text))).trim == "" with
          | true =>
              refine ⟨"[LLM 911 ERROR] LLM returned an empty response.", ?_, fun _ => by decide⟩
              simp [run_llm_911, h]
              rfl
          | false =>
              refine ⟨(String.intercalate "\n"
                  ((content.filter (fun b => b.btype == "text")).map (·.text))).trim,
                ?_, fun hf => ?_⟩
              · simp [run_llm_911, h]
                rfl
              · simp only [llmFailureMode] at hf
                rw [h] at hf
                exact Bool.noConfusion hf

/-- C1 (witness). The amended statement applied to empty mappings and empty
code with a failed client initialization: the result is a returned string,
and it carries the error tag. -/
theorem run_llm_911_total_on_mappings_applied :
    ∃ s, run_llm_911
        ⟨.error "ANTHROPIC_API_KEY is not set. Please add it to your .env or environment.",
         ⟨none, .error ()⟩, .success []⟩ (.obj []) (.obj []) "" = .ok s ∧
      (llmFailureMode
          ⟨.error "ANTHROPIC_API_KEY is not set. Please add it to your .env or environment.",
           ⟨none, .error ()⟩, .success []⟩ = true →
        strStartsWith s errorTag = true) :=
  run_llm_911_total_on_mappings
    ⟨.error "ANTHROPIC_API_KEY is not set. Please add it to your .env or environment.",
     ⟨none, .error ()⟩, .success []⟩ [] [] ""

/-- C8. Every failing outcome of the provider health check - a missing or
empty browser-automation credential, or any raise inside the external call -
yields the one fixed fallback sentence, and the report generation result is
unchanged by the provider environment (the health summary only feeds the
prompt), so no run_llm_911 error is ever caused by the health check. -/
theorem check_provider_status_fallback (p : ProviderEnv) :
    ((pyFalsyOptStr p.browser_use_api_key || isTaskFailure p) = true →
      check_provider_status p = provider_fallback) ∧
    (∀ (env : LlmEnv) (q : ProviderEnv) (sentry galileo : Json) (code : String),
      run_llm_911 { env with provider := q } sentry galileo code =
        run_llm_911 env sentry galileo code) := by
  constructor
  · intro h
    obtain ⟨key, out⟩ := p
    cases hk : pyFalsyOptStr key with
    | true => simp [check_provider_status, hk]
    | false =>
        cases out with
        | error u => simp [check_provider_status, hk]
        | ok page =>
            simp only [isTaskFailure, Bool.or_false] at h
            rw [hk] at h
            exact Bool.noConfusion h
  · intro env q sentry galileo code
    obtain ⟨ci, prov, call⟩ := env
    rfl

/-- C8 (witness). The fallback part applied to the environment with no
browser-automation credential. -/
theorem check_provider_status_fallback_applied :
    check_provider_status ⟨none, .error ()⟩ = provider_fallback :=
  (check_provider_status_fallback ⟨none, .error ()⟩).1 (by decide)

/-- C9. When the key resolves and the clone call raises a DaytonaError, the
error is swallowed and the created sandbox returned whenever the lowercased
message contains already exists, and every other clone error is re-raised
wrapped in a RuntimeError naming the resolved repository. -/
theorem create_daytona_sandbox_clone_errors (w : DaytonaWorld)
    (api_key repository repo_path : Option String) (k msg : String)
    (hkey : resolved_api_key w api_key = some k) (hne : k ≠ "")
    (hclone : w.clone (resolved_repo w repository) (resolved_repo_path w repo_path) =
      .error msg) :
    (strIn "already exists" (pyLower msg) = true →
      create_daytona_sandbox w api_key repository repo_path = .ok (w.create k)) ∧
    (strIn "already exists" (pyLower msg) = false →
      create_daytona_sandbox w api_key repository repo_path =
        .error ("Failed to clone " ++ resolved_repo w repository
          ++ " into sandbox: " ++ msg)) := by
  constructor <;> intro h4 <;>
    simp [create_daytona_sandbox, hkey, hne, hclone, h4]

/-- C9 (witness). An already-exists clone failure on a rerun returns the
sandbox; the hypotheses are discharged on a concrete world. -/
theorem create_daytona_sandbox_clone_errors_applied :
    create_daytona_sandbox
      ⟨[], [("DAYTONA_API_KEY", "key1")], (fun k => "sb-" ++ k),
       (fun _ _ => .error "destination path already exists")⟩
      none none none = .ok ("sb-" ++ "key1") :=
  (create_daytona_sandbox_clone_errors
    ⟨[], [("DAYTONA_API_KEY", "key1")], (fun k => "sb-" ++ k),
     (fun _ _ => .error "destination path already exists")⟩
    none none none "key1" "destination path already exists"
    rfl (by decide) rfl).1 (by decide)

/-- C10 (counterexample). With the key in both the dotenv file (filekey)
and the process environment (envkey) and no argument, the sandbox is
created with the process-environment value, not the dotenv value the claim
gives precedence to. -/
theorem create_daytona_sandbox_env_over_dotenv :
    create_daytona_sandbox
      ⟨[("DAYTONA_API_KEY", "filekey")], [("DAYTONA_API_KEY", "envkey")],
       (fun k => "sb-" ++ k), (fun _ _ => .ok ())⟩
      none none none = .ok "sb-envkey" ∧
    ("sb-envkey" : String) ≠ "sb-filekey" :=
  ⟨rfl, by decide⟩

/-- C10 (amended). The key resolves with precedence: non-empty explicit
argument first, else the process-environment value (a variable present in
the environment, even empty, shadows the dotenv file because load_dotenv
runs with override=False), else the dotenv-file value; when the resolved
value is missing or empty the call fails fast with the descriptive
RuntimeError, and otherwise the sandbox is created with the resolved key. -/
theorem create_daytona_sandbox_key_resolution (w : DaytonaWorld)
    (arg repository repo_path : Option String) :
    (resolved_api_key w arg =
      specResolveKey arg (lookupEnv w.os_environ "DAYTONA_API_KEY")
        (lookupEnv w.dotenv "DAYTONA_API_KEY")) ∧
    (pyFalsyOptStr (resolved_api_key w arg) = true →
      create_daytona_sandbox w arg repository repo_path = .error missing_key_message) ∧
    (∀ k : String, resolved_api_key w arg = some k → k ≠ "" →
      w.clone (resolved_repo w repository) (resolved_repo_path w repo_path) = .ok () →
      create_daytona_sandbox w arg repository repo_path = .ok (w.create k)) := by
  refine ⟨?_, fun hf => ?_, fun k hk hne hclone => ?_⟩
  · cases arg with
    | none => rfl
    | some a =>
        by_cases ha : a = ""
        · subst ha; rfl
        · simp [resolved_api_key, orElsePy, specResolveKey, ha]
  · rcases hres : resolved_api_key w arg with _ | s
    · simp [create_daytona_sandbox, hres]
    · rw [hres] at hf
      simp only [pyFalsyOptStr] at hf
      simp [create_daytona_sandbox, hres, hf]
  · simp [create_daytona_sandbox, hk, hne, hclone]

/-- C10 (witness). The amended resolution applied to a world where only the
process environment holds the key: the sandbox is created with that value. -/
theorem create_daytona_sandbox_key_resolution_applied :
    create_daytona_sandbox
      ⟨[("DAYTONA_API_KEY", "filekey")], [("DAYTONA_API_KEY", "envkey")],
       (fun k => "sandbox-" ++ k), (fun _ _ => .ok ())⟩
      none none none = .ok ("sandbox-" ++ "envkey") :=
  (create_daytona_sandbox_key_resolution
    ⟨[("DAYTONA_API_KEY", "filekey")], [("DAYTONA_API_KEY", "envkey")],
     (fun k => "sandbox-" ++ k), (fun _ _ => .ok ())⟩
    none none none).2.2 "envkey" rfl (by decide) rfl

end LLM911
